import Mathlib

/-!
Verification development for the MySecretary Telegram bot (src/bot.py).

The development shallowly embeds the conversational session navigator of
bot.py: the per-user session dictionary (`context.user_data` keys
`section`, `mode`, `persona`, `tasks`), the process-wide FX-rate global
`MARKET_RATE_USD`, and the handlers `start`, `handle_message`,
`handle_callback_query`, `handle_document` together with the helpers
`process_link`, `call_ai_direct` and `get_aqi_status`.

Modelling conventions:
  * `section` and `mode` are kept as the raw Python strings
    (`"main"`, `"ai_assistant"`, ..., `"add_task"`, `"set_market_rate"`, ...);
    the spec names map as Main="main", Brain="brain",
    AIAssistant="ai_assistant", Schedule="schedule", Utilities="utils",
    Settings="settings", and AwaitingLinkURL="add_link",
    AwaitingMarketRate="set_market_rate", AwaitingWeatherCity="check_weather",
    AwaitingReminderText="add_task", AwaitingTaskIndexToComplete="remove_task",
    AwaitingDeleteSourceName="delete_data", AwaitingEmailTopic="email",
    AwaitingSummaryText="summarize", AwaitingTranslationText="translate",
    AwaitingReportTopic="report".
  * A session that was never written is observationally equal to
    `section = "main"`, `mode = None`, `persona = "cute"`, `tasks = []`
    because every read in bot.py goes through `.get` with those defaults
    (bot.py:167-169, 233, 237, 269).
  * External collaborators (Gemini llm, Pinecone vector store and index,
    the weather and currency HTTP lookups, the document loaders) are
    oracles in a `Services` record.  A Python call that can raise is an
    `Except String` value; `try/except` blocks of the source are `match`
    on that value exactly where the source has them.  Numeric fields of
    the weather/currency payloads that are merely interpolated into
    display text are carried as pre-rendered strings, since no control
    flow of bot.py depends on them (only `aqi` is compared, so it is an
    `Int`).
  * Replies sent with `reply_text` / `edit_message_text` are accumulated
    in order as `Reply` values (text plus which keyboard object was
    attached); calls into external services are logged as `SvcCall`
    values.  `send_chat_action` and logging are not observable effects.
  * Python `text.isdigit()` followed by `int(text)` is `pyParseDigits`
    (both accept exactly the non-empty all-digit strings over ASCII;
    the unicode-digit corner of `str.isdigit` is outside the model).
  * The outer `try/except` of `handle_message` (bot.py:348-352) can only
    be reached by a transport failure (`reply_text` itself raising),
    because every external-service call inside the body is guarded by a
    local `try/except` (bot.py:94-96, 117-119, 221-225, 245-248, 336-342,
    356-359) or by an explicit `if` check; transport failures are outside
    the model, so `handle_message` here is the body of that `try`.
-/

/-- Per-user session state: the `context.user_data` dictionary of bot.py. -/
structure Session where
  sectionId : String
  mode : Option String
  persona : String
  tasks : List String
deriving Repr, DecidableEq

/-- Whole-process state: one session plus the process-wide global
`MARKET_RATE_USD` (bot.py:33). -/
structure BotState where
  session : Session
  marketRate : Nat
deriving Repr, DecidableEq

/-- The keyboard object attached to a reply (bot.py:125-152; `brainPanel`
is the inline keyboard of bot.py:260, `noKb` a reply without markup). -/
inductive Keyboard where
  | mainMenu
  | aiTools
  | scheduleMenu
  | utilsMenu
  | settingsMenu
  | backBtn
  | brainPanel
  | noKb
deriving Repr, DecidableEq

/-- One outgoing message: its text and attached keyboard. -/
structure Reply where
  text : String
  kb : Keyboard
deriving Repr, DecidableEq

/-- A call into one of the external collaborators, as observed at the
navigator boundary. -/
inductive SvcCall where
  | search (query : String) (k : Nat)
  | generate (prompt : String)
  | deleteBySource (tag : String)
  | ingest (sourceRef : String)
  | weatherLookup (city : String)
  | currencyLookup
  | indexStats
deriving Repr, DecidableEq

/-- Result of one handler invocation: the new state, the replies sent (in
order) and the external-service calls made (in order). -/
structure Outcome where
  state : BotState
  replies : List Reply
  calls : List SvcCall
deriving Repr, DecidableEq

/-- Payload of `get_weather_data` (bot.py:84-93).  Fields that are only
interpolated into the report text are pre-rendered strings; `aqi` is
numeric because `get_aqi_status` branches on it. -/
structure WeatherData where
  name : String
  country : String
  temp : String
  feelsLike : String
  humidity : String
  windSpeed : String
  windDir : String
  aqi : Int
  pm25 : String
deriving Repr, DecidableEq

/-- Oracles for the external collaborators of bot.py.  An `Except` value
models a Python call that may raise; `Option` models the helpers that
catch internally and return `None` on failure (bot.py:94-96, 117-119). -/
structure Services where
  hasVectorStore : Bool
  similaritySearch : String → Nat → Except String (List String)
  llmInvoke : String → Except String String
  pineconeDelete : String → Except String Unit
  pineconeStats : Except String Nat
  getWeatherData : String → Option WeatherData
  getCurrencyData : Nat → Option String
  addDocuments : String → Except String Unit

/-- Direct translation of `get_aqi_status` (bot.py:55-60). -/
def get_aqi_status (aqi : Int) : String :=
  if aqi ≤ 50 then "🟢 Good (သန့်ရှင်း)"
  else if aqi ≤ 100 then "🟡 Moderate (အသင့်အတင့်)"
  else if aqi ≤ 150 then "🟠 Unhealthy for Sensitive Groups"
  else if aqi ≤ 200 then "🔴 Unhealthy (ကျန်းမာရေး ထိခိုက်နိုင်)"
  else "🟣 Very Unhealthy (အန္တရာယ်ရှိ)"

/-- Translation of `process_link` (bot.py:376-387): a "Processing" status
message, then the load/split/add pipeline (the `addDocuments` oracle),
then the status message is edited to Done or to the exception text. -/
def process_link (svc : Services) (st : BotState) (url : String) : Outcome :=
  match svc.addDocuments url with
  | .ok _ => ⟨st, [⟨"🔗 Processing...", .noKb⟩, ⟨"✅ Done.", .noKb⟩], [.ingest url]⟩
  | .error e => ⟨st, [⟨"🔗 Processing...", .noKb⟩, ⟨"Error: " ++ e, .noKb⟩], [.ingest url]⟩

/-- Translation of `call_ai_direct` (bot.py:354-359): invoke the llm and
reply with the generated text; the bare `except: pass` swallows a failure
without any reply. -/
def call_ai_direct (svc : Services) (st : BotState) (prompt : String) : Outcome :=
  match svc.llmInvoke prompt with
  | .ok r => ⟨st, [⟨r, .noKb⟩], [.generate prompt]⟩
  | .error _ => ⟨st, [], [.generate prompt]⟩

/-- The numbered task listing `"\n".join(f"{i+1}. {t}" ...)` of
bot.py:270 and bot.py:280. -/
def numberedTasks (tasks : List String) : String :=
  String.intercalate "\n" (tasks.enum.map (fun p => toString (p.1 + 1) ++ ". " ++ p.2))

/-- Python `text.isdigit()` followed by `int(text)` over ASCII: `some n`
exactly when the text is non-empty and every character is a decimal
digit, with `n` the decimal value (bot.py:202-203, 238-239). -/
def pyParseDigits (s : String) : Option Nat :=
  if s.data ≠ [] ∧ s.data.all Char.isDigit then
    some (s.data.foldl (fun n c => n * 10 + (c.toNat - 48)) 0)
  else none

/-- The condition of the global back branch (bot.py:172). -/
def isBackToken (t : String) : Prop := t = "🔙 Back" ∨ t = "🔙 Main Menu"

instance (t : String) : Decidable (isBackToken t) := by
  unfold isBackToken; infer_instance

/-- Clear the capture mode, as the trailing `context.user_data['mode'] = None`
of every capture branch (bot.py:198, 207, 230, 234, 242, 249, 253). -/
def clearMode (o : Outcome) : Outcome :=
  { o with state := { o.state with session := { o.state.session with mode := none } } }

/-- Step 1 of `handle_message`: the global back button logic
(bot.py:171-192).  Returns `none` when the text is not a back token and
the source falls through. -/
def backStep (st : BotState) (text : String) : Option Outcome :=
  if isBackToken text then
    some (
      if st.session.sectionId = "settings" then
        ⟨{ st with session := { st.session with mode := none, sectionId := "utils" } },
          [⟨"⚡ Utilities Menu", .utilsMenu⟩], []⟩
      else if st.session.sectionId = "utils" then
        ⟨{ st with session := { st.session with mode := none, sectionId := "main" } },
          [⟨"🏠 Main Menu", .mainMenu⟩], []⟩
      else if st.session.sectionId = "schedule" then
        ⟨{ st with session := { st.session with mode := none, sectionId := "main" } },
          [⟨"🏠 Main Menu", .mainMenu⟩], []⟩
      else if st.session.sectionId = "ai_assistant" then
        ⟨{ st with session := { st.session with mode := none, sectionId := "main" } },
          [⟨"🏠 Main Menu", .mainMenu⟩], []⟩
      else
        ⟨{ st with session := { st.session with mode := none, sectionId := "main" } },
          [⟨"🏠 Main Menu", .mainMenu⟩], []⟩)
  else none

/-- Step 2 of `handle_message`: the action-mode (input capture) branches
(bot.py:194-253).  Returns `none` when no capture branch matches (mode is
`None`, or an unregistered string) and the source falls through to menu
navigation. -/
def captureStep (svc : Services) (st : BotState) (text : String) : Option Outcome :=
  match st.session.mode with
  | none => none
  | some m =>
    if m = "add_link" then
      -- bot.py:195-198
      some (clearMode (
        if text.startsWith "http" then process_link svc st text
        else ⟨st, [⟨"❌ Link အမှန်မဟုတ်ပါ", .backBtn⟩], []⟩))
    else if m = "set_market_rate" then
      -- bot.py:200-207
      some (clearMode (
        match pyParseDigits text with
        | some n =>
          ⟨{ st with marketRate := n },
            [⟨"✅ Market Rate (USD) ကို " ++ toString n ++ " သို့ ပြောင်းလိုက်ပါပြီ။", .settingsMenu⟩], []⟩
        | none =>
          ⟨st, [⟨"❌ ဂဏန်းသီးသန့် ရိုက်ထည့်ပေးပါရှင် (ဥပမာ: 4500)။", .settingsMenu⟩], []⟩))
    else if m = "check_weather" then
      -- bot.py:209-230
      some (clearMode (
        let searching : Reply := ⟨"🔍 " ++ text ++ " မြို့အတွက် ရှာဖွေနေပါတယ်...", .utilsMenu⟩
        match svc.getWeatherData text with
        | some d =>
          let report :=
            "🌤️ **Weather: " ++ d.name ++ "**\n" ++
            "🌡️ Temp: " ++ d.temp ++ "°C (Feels: " ++ d.feelsLike ++ "°C)\n" ++
            "💨 Wind: " ++ d.windSpeed ++ " km/h (" ++ d.windDir ++ "°)\n" ++
            "🏭 **Air Quality:** " ++ toString d.aqi ++ " US AQI\n(" ++ get_aqi_status d.aqi ++ ")\n"
          let tipPrompt := "Weather: " ++ d.temp ++ "C, AQI: " ++ toString d.aqi ++
            ". Give 1 short health tip in Burmese."
          let report2 :=
            match svc.llmInvoke tipPrompt with
            | .ok advice => report ++ "\n💡 **Tip:** " ++ advice
            | .error _ => report
          ⟨st, [searching, ⟨report2, .utilsMenu⟩], [.weatherLookup text, .generate tipPrompt]⟩
        | none =>
          ⟨st, [searching, ⟨"❌ မတွေ့ပါရှင်။", .utilsMenu⟩], [.weatherLookup text]⟩))
    else if m = "add_task" then
      -- bot.py:232-234
      some (clearMode (
        ⟨{ st with session := { st.session with tasks := st.session.tasks ++ [text] } },
          [⟨"✅ Saved.", .scheduleMenu⟩], []⟩))
    else if m = "remove_task" then
      -- bot.py:236-242
      some (clearMode (
        match pyParseDigits text with
        | some i =>
          if 1 ≤ i ∧ i ≤ st.session.tasks.length then
            ⟨{ st with session := { st.session with tasks := st.session.tasks.eraseIdx (i - 1) } },
              [⟨"✅ Removed: " ++ (st.session.tasks.get? (i - 1)).getD "", .scheduleMenu⟩], []⟩
          else ⟨st, [⟨"❌ Invalid Number", .scheduleMenu⟩], []⟩
        | none => ⟨st, [⟨"❌ Invalid Number", .scheduleMenu⟩], []⟩))
    else if m = "delete_data" then
      -- bot.py:244-249
      some (clearMode (
        match svc.pineconeDelete text with
        | .ok _ => ⟨st, [⟨"🗑️ Deleted: " ++ text, .mainMenu⟩], [.deleteBySource text]⟩
        | .error e => ⟨st, [⟨"Error: " ++ e, .noKb⟩], [.deleteBySource text]⟩))
    else if m = "email" ∨ m = "summarize" ∨ m = "translate" ∨ m = "report" then
      -- bot.py:251-253
      some (clearMode (call_ai_direct svc st ("Task: " ++ m ++ ". Text: " ++ text)))
    else none

/-- The main-menu label chain (bot.py:258-275), reached in any section:
the four top-level buttons navigate to their sections. -/
def mainMenuNav (st : BotState) (text : String) : Option Outcome :=
  if text = "🧠 My Brain" then
    some ⟨{ st with session := { st.session with sectionId := "brain" } },
      [⟨"🧠 **Brain Panel**", .brainPanel⟩], []⟩
  else if text = "🤖 AI Assistant" then
    some ⟨{ st with session := { st.session with sectionId := "ai_assistant" } },
      [⟨"🤖 **AI Tools**", .aiTools⟩], []⟩
  else if text = "📅 My Schedule" then
    some (
      let task_str := if st.session.tasks = [] then "No tasks." else numberedTasks st.session.tasks
      ⟨{ st with session := { st.session with sectionId := "schedule" } },
        [⟨"📅 **Today\x27s Plan:**\n" ++ task_str, .scheduleMenu⟩], []⟩)
  else if text = "⚡ Utilities" then
    some ⟨{ st with session := { st.session with sectionId := "utils" } },
      [⟨"⚡ **Utilities**", .utilsMenu⟩], []⟩
  else none

/-- The schedule submenu block (bot.py:278-281), reached when the current
section is `schedule`. -/
def scheduleMenuSel (st : BotState) (text : String) : Option Outcome :=
  if text = "➕ Reminder သစ်" then
    some ⟨{ st with session := { st.session with mode := some "add_task" } },
      [⟨"Task?", .backBtn⟩], []⟩
  else if text = "📋 စာရင်းကြည့်" then
    some ⟨st, [⟨"Tasks:\n" ++ numberedTasks st.session.tasks, .scheduleMenu⟩], []⟩
  else if text = "✅ Task Done" then
    some ⟨{ st with session := { st.session with mode := some "remove_task" } },
      [⟨"Number?", .backBtn⟩], []⟩
  else none

/-- The utilities submenu block (bot.py:283-311).  The currency table's
text (date, official and derived market rates, bot.py:291-299) is
delegated to the oracle, which receives the current process-wide rate;
the trailing note is appended as in bot.py:300. -/
def utilsMenuSel (svc : Services) (st : BotState) (text : String) : Option Outcome :=
  if text = "🌦️ Weather" then
    some ⟨{ st with session := { st.session with mode := some "check_weather" } },
      [⟨"🌦️ City Name? (e.g., Yangon)", .backBtn⟩], []⟩
  else if text = "💰 Currency" then
    some (
      match svc.getCurrencyData st.marketRate with
      | some tbl =>
        ⟨st, [⟨tbl ++ "💡 **Note:** Market Rate estimated at **" ++ toString st.marketRate ++ "**.",
          .utilsMenu⟩], [.currencyLookup]⟩
      | none => ⟨st, [⟨"❌ Data Error", .utilsMenu⟩], [.currencyLookup]⟩)
  else if text = "⚙️ Settings" then
    some ⟨{ st with session := { st.session with sectionId := "settings" } },
      [⟨"⚙️ **Settings**", .settingsMenu⟩], []⟩
  else if text = "ℹ️ About Secretary" then
    some ⟨st, [⟨"ℹ️ **About:**\nSmart Secretary Bot v2.0", .utilsMenu⟩], []⟩
  else none

/-- The settings submenu block (bot.py:313-324). -/
def settingsMenuSel (st : BotState) (text : String) : Option Outcome :=
  if text = "✏️ Set Market Rate" then
    some ⟨{ st with session := { st.session with mode := some "set_market_rate" } },
      [⟨"💵 Current Rate: " ++ toString st.marketRate ++ "\nEnter new rate:", .backBtn⟩], []⟩
  else if text = "🔄 Change Persona" then
    some (
      let new_p := if st.session.persona = "cute" then "strict" else "cute"
      ⟨{ st with session := { st.session with persona := new_p } },
        [⟨"Persona: " ++ new_p, .settingsMenu⟩], []⟩)
  else if text = "🗑️ Clear Memory" then
    some ⟨{ st with session := { st.session with tasks := [] } },
      [⟨"Cleared.", .settingsMenu⟩], []⟩
  else none

/-- The AI-assistant submenu block (bot.py:326-330). -/
def aiMenuSel (st : BotState) (text : String) : Option Outcome :=
  if text = "✉️ Email Draft" then
    some ⟨{ st with session := { st.session with mode := some "email" } },
      [⟨"Topic?", .backBtn⟩], []⟩
  else if text = "📝 Summarize" then
    some ⟨{ st with session := { st.session with mode := some "summarize" } },
      [⟨"Text?", .backBtn⟩], []⟩
  else if text = "🇬🇧⇄🇲🇲 Translate" then
    some ⟨{ st with session := { st.session with mode := some "translate" } },
      [⟨"Text?", .backBtn⟩], []⟩
  else if text = "🧾 Report" then
    some ⟨{ st with session := { st.session with mode := some "report" } },
      [⟨"Topic?", .backBtn⟩], []⟩
  else none

/-- Step 3 of `handle_message`: menu navigation (bot.py:255-330).  The
four main-menu labels are tested first, in any section (bot.py:258-275);
then each submenu block runs only when the current section matches its
guard (bot.py:278, 283, 313, 326); on no match control falls through. -/
def menuStep (svc : Services) (st : BotState) (text : String) : Option Outcome :=
  match mainMenuNav st text with
  | some o => some o
  | none =>
    match (if st.session.sectionId = "schedule" then scheduleMenuSel st text else none) with
    | some o => some o
    | none =>
      match (if st.session.sectionId = "utils" then utilsMenuSel svc st text else none) with
      | some o => some o
      | none =>
        match (if st.session.sectionId = "settings" then settingsMenuSel st text else none) with
        | some o => some o
        | none =>
          if st.session.sectionId = "ai_assistant" then aiMenuSel st text else none

/-- Python truthiness of the `mode` value, for `not user_mode`
(bot.py:333): `None` and the empty string are falsy. -/
def pyFalsy : Option String → Bool
  | none => true
  | some s => s = ""

/-- Step 4 of `handle_message`: the default RAG chat branch
(bot.py:332-343).  The `try` around `similarity_search` and `llm.invoke`
is the `match` on the oracle results; an exception becomes the
`"Error: ..."` reply of bot.py:342 and the session is not touched. -/
def ragStep (svc : Services) (st : BotState) (text : String) : Option Outcome :=
  if st.session.sectionId = "ai_assistant" ∧ pyFalsy st.session.mode then
    some (
      if !svc.hasVectorStore then ⟨st, [⟨"DB Error", .noKb⟩], []⟩
      else
        match svc.similaritySearch text 3 with
        | .error e => ⟨st, [⟨"Error: " ++ e, .noKb⟩], [.search text 3]⟩
        | .ok docs =>
          let context_str := String.intercalate "\n" docs
          let prompt := "Context: " ++ context_str ++ "\n\nQ: " ++ text ++ "\n\nAnswer in Burmese:"
          match svc.llmInvoke prompt with
          | .ok resp => ⟨st, [⟨resp, .noKb⟩], [.search text 3, .generate prompt]⟩
          | .error e => ⟨st, [⟨"Error: " ++ e, .noKb⟩], [.search text 3, .generate prompt]⟩)
  else none

/-- The final fallback reply of `handle_message` (bot.py:345-346). -/
def fallbackOutcome (st : BotState) : Outcome :=
  ⟨st, [⟨"Please select a menu option.", .mainMenu⟩], []⟩

/-- Translation of `handle_message` (bot.py:164-352): each step returns on
a match (the source's early `return`s), otherwise control falls through to
the next step and finally to the fallback reply. -/
def handle_message (svc : Services) (st : BotState) (text : String) : Outcome :=
  match backStep st text with
  | some o => o
  | none =>
    match captureStep svc st text with
    | some o => o
    | none =>
      match menuStep svc st text with
      | some o => o
      | none =>
        match ragStep svc st text with
        | some o => o
        | none => fallbackOutcome st

/-- Translation of `start` (bot.py:158-162).  The persona field is left
as it is: the source only writes it when the key is absent, and in the
model the field always carries its defaulted value. -/
def start (st : BotState) : Outcome :=
  ⟨{ st with session := { st.session with sectionId := "main", mode := none } },
    [⟨"မင်္ဂလာပါ Boss! ရှင့်ရဲ့ Secretary Bot လေး အဆင်သင့်ပါရှင်။", .mainMenu⟩], []⟩

/-- Translation of `handle_callback_query` (bot.py:361-374).  The
`describe_index_stats` call of the `list_mem` branch is not guarded by any
`try`: on failure the exception propagates into the telegram framework and
the session is left untouched with no reply sent. -/
def handle_callback_query (svc : Services) (st : BotState) (dat : String) : Outcome :=
  if dat = "add_doc" then ⟨st, [⟨"📥 PDF/Word ပို့ပါ Boss။", .noKb⟩], []⟩
  else if dat = "add_link" then
    ⟨{ st with session := { st.session with mode := some "add_link" } },
      [⟨"🔗 Link ပို့ပါ Boss။", .noKb⟩], []⟩
  else if dat = "del_data" then
    ⟨{ st with session := { st.session with mode := some "delete_data" } },
      [⟨"🗑️ ဖျက်လိုသော Source Path ပို့ပါ (Logs မှကြည့်ပါ)။", .noKb⟩], []⟩
  else if dat = "list_mem" then
    match svc.pineconeStats with
    | .ok n => ⟨st, [⟨"📊 Stats:\nVectors: " ++ toString n, .noKb⟩], [.indexStats]⟩
    | .error _ => ⟨st, [], [.indexStats]⟩
  else ⟨st, [], []⟩

/-- Translation of `handle_document` (bot.py:389-405): status message,
download plus load/split/add pipeline (the same ingestion oracle as
`process_link`), then the status is edited to Saved or the exception
text.  The session is never written. -/
def handle_document (svc : Services) (st : BotState) (fileName : String) : Outcome :=
  match svc.addDocuments fileName with
  | .ok _ =>
    ⟨st, [⟨"📥 Processing File...", .noKb⟩, ⟨"✅ Saved: " ++ fileName, .noKb⟩], [.ingest fileName]⟩
  | .error e =>
    ⟨st, [⟨"📥 Processing File...", .noKb⟩, ⟨"Error: " ++ e, .noKb⟩], [.ingest fileName]⟩

/-- The events the registered handlers receive (bot.py:417-421). -/
inductive Event where
  | message (text : String)
  | callback (dat : String)
  | startCommand
  | document (fileName : String)
deriving Repr, DecidableEq

/-- Dispatch one incoming event to its handler. -/
def stepEvent (svc : Services) (st : BotState) : Event → Outcome
  | .message t => handle_message svc st t
  | .callback d => handle_callback_query svc st d
  | .startCommand => start st
  | .document f => handle_document svc st f

/-- Run a finite sequence of events, each with the service behaviour in
force at that moment, threading the state. -/
def runEvents : List (Services × Event) → BotState → BotState
  | [], st => st
  | (svc, e) :: rest, st => runEvents rest (stepEvent svc st e).state

/-- A fresh session with the process-wide rate default (bot.py:33,
bot.py:167-169). -/
def initialState : BotState := ⟨⟨"main", none, "cute", []⟩, 5200⟩

/-- The sections that ever appear in a session: the static section set of
the spec (Main, Brain, AIAssistant, Schedule, Utilities, Settings). -/
def knownSections : List String :=
  ["main", "brain", "ai_assistant", "schedule", "utils", "settings"]

/-- The registered capture-mode identifiers: exactly the mode strings
that have a completion branch in bot.py:194-253. -/
def knownModes : List String :=
  ["add_link", "set_market_rate", "check_weather", "add_task", "remove_task",
   "delete_data", "email", "summarize", "translate", "report"]

/-- The session-state invariant of the spec: the section is a member of
the static section set and the mode, when present, is registered. -/
def SessionInv (s : Session) : Prop :=
  s.sectionId ∈ knownSections ∧ ∀ m, s.mode = some m → m ∈ knownModes

instance (s : Session) : Decidable (SessionInv s) := by
  unfold SessionInv
  cases s.mode <;> simp <;> infer_instance

/-- The four top-level menu labels (bot.py:125-128), matched in any
section by bot.py:258-275. -/
def mainLabels : List String :=
  ["🧠 My Brain", "🤖 AI Assistant", "📅 My Schedule", "⚡ Utilities"]

/-- The menu entries displayed by each section's own keyboard
(bot.py:125-152), excluding the global back/home buttons.  The Brain
panel's buttons are inline callback buttons, not text entries. -/
def sectionEntries (sect : String) : List String :=
  if sect = "main" then mainLabels
  else if sect = "schedule" then ["➕ Reminder သစ်", "📋 စာရင်းကြည့်", "✅ Task Done"]
  else if sect = "utils" then ["🌦️ Weather", "💰 Currency", "⚙️ Settings", "ℹ️ About Secretary"]
  else if sect = "settings" then ["🔄 Change Persona", "🗑️ Clear Memory", "✏️ Set Market Rate"]
  else if sect = "ai_assistant" then ["✉️ Email Draft", "📝 Summarize", "🇬🇧⇄🇲🇲 Translate", "🧾 Report"]
  else []

/-- A text that the menu-navigation step of the code consumes: one of the
four global main-menu labels, or an entry of the current section. -/
def isMenuLabel (sect t : String) : Prop := t ∈ mainLabels ∨ t ∈ sectionEntries sect

instance (sect t : String) : Decidable (isMenuLabel sect t) := by
  unfold isMenuLabel; infer_instance

/-- Spec-side staged dispatcher: the five precedence levels as flat,
independent guards (back token; active capture mode; menu label — the
four global main labels or an entry of the current section; free-form
chat in the AI assistant section; fallback), each dispatching to the
corresponding handler of the embedding. -/
def handleStaged (svc : Services) (st : BotState) (text : String) : Outcome :=
  if isBackToken text then (backStep st text).getD (fallbackOutcome st)
  else if st.session.mode.isSome then (captureStep svc st text).getD (fallbackOutcome st)
  else if isMenuLabel st.session.sectionId text then (menuStep svc st text).getD (fallbackOutcome st)
  else if st.session.sectionId = "ai_assistant" then (ragStep svc st text).getD (fallbackOutcome st)
  else fallbackOutcome st

/-- A concrete, fully successful service environment used for witnesses:
retrieval returns one snippet, the llm echoes its prompt, ingestion,
deletion and stats succeed, weather and currency lookups find nothing. -/
def svcW : Services where
  hasVectorStore := true
  similaritySearch := fun _ _ => .ok ["Refunds are processed within 14 days."]
  llmInvoke := fun p => .ok ("ANSWER[" ++ p ++ "]")
  pineconeDelete := fun _ => .ok ()
  pineconeStats := .ok 7
  getWeatherData := fun _ => none
  getCurrencyData := fun _ => none
  addDocuments := fun _ => .ok ()

/-- A service environment whose retrieval search throws. -/
def svcSearchErr : Services :=
  { svcW with similaritySearch := fun _ _ => .error "boom" }

/-- A service environment whose retrieval search returns no snippets. -/
def svcEmptySearch : Services :=
  { svcW with similaritySearch := fun _ _ => .ok [] }


/-- The static parent map of the spec (section 4.1, step 1):
Settings goes back to Utilities, every other section to Main
(bot.py:177-191). -/
def parentOf (sect : String) : String := if sect = "settings" then "utils" else "main"

/-- The destination menu reply emitted by the back branch: prompt text
plus keyboard (bot.py:179, 182, 185, 188, 191). -/
def destMenuReply : String → Reply
  | "utils" => ⟨"⚡ Utilities Menu", .utilsMenu⟩
  | _ => ⟨"🏠 Main Menu", .mainMenu⟩

/-- The mode component of the session invariant: the capture mode, when
present, is one of the registered identifiers. -/
def ModeRegistered (s : Session) : Prop := ∀ m, s.mode = some m → m ∈ knownModes

theorem backStep_some (st : BotState) (text : String) (h : isBackToken text) :
    backStep st text = some
      ⟨{ st with session := { st.session with mode := none, sectionId := parentOf st.session.sectionId } },
        [destMenuReply (parentOf st.session.sectionId)], []⟩ := by
  unfold backStep parentOf destMenuReply
  rw [if_pos h]
  split <;> simp_all

theorem backStep_none (st : BotState) (text : String) (h : ¬ isBackToken text) :
    backStep st text = none := by
  unfold backStep
  rw [if_neg h]

theorem captureStep_char (svc : Services) (st : BotState) (text : String) (o : Outcome)
    (h : captureStep svc st text = some o) :
    o.state.session.sectionId = st.session.sectionId ∧ o.state.session.mode = none := by
  unfold captureStep at h
  cases hm : st.session.mode <;> rw [hm] at h
  case none => simp at h
  case some m =>
    simp only [clearMode, process_link, call_ai_direct] at h
    repeat' split at h
    all_goals first
      | (injection h with h; subst h; simp)
      | simp at h

theorem captureStep_isSome (svc : Services) (st : BotState) (text : String) (m : String)
    (hm : st.session.mode = some m) (hreg : m ∈ knownModes) :
    (captureStep svc st text).isSome = true := by
  simp only [knownModes, List.mem_cons, List.mem_singleton, List.not_mem_nil, or_false] at hreg
  rcases hreg with rfl | rfl | rfl | rfl | rfl | rfl | rfl | rfl | rfl | rfl <;>
    simp [captureStep, hm]

theorem ragStep_state (svc : Services) (st : BotState) (text : String) (o : Outcome)
    (h : ragStep svc st text = some o) : o.state = st := by
  unfold ragStep at h
  split at h
  case isTrue =>
    injection h with h
    subst h
    dsimp only
    (repeat' split) <;> rfl
  case isFalse => simp at h

theorem ragStep_none_iff (svc : Services) (st : BotState) (text : String) :
    ragStep svc st text = none ↔
      ¬ (st.session.sectionId = "ai_assistant" ∧ pyFalsy st.session.mode = true) := by
  unfold ragStep
  split <;> simp_all

theorem mainMenuNav_none_iff (st : BotState) (text : String) :
    mainMenuNav st text = none ↔ ¬ text ∈ mainLabels := by
  unfold mainMenuNav mainLabels
  repeat' split
  all_goals simp_all

theorem scheduleMenuSel_none_iff (st : BotState) (text : String) :
    scheduleMenuSel st text = none ↔ ¬ text ∈ sectionEntries "schedule" := by
  unfold scheduleMenuSel sectionEntries
  repeat' split
  all_goals simp_all

theorem utilsMenuSel_none_iff (svc : Services) (st : BotState) (text : String) :
    utilsMenuSel svc st text = none ↔ ¬ text ∈ sectionEntries "utils" := by
  unfold utilsMenuSel sectionEntries
  repeat' split
  all_goals simp_all

theorem settingsMenuSel_none_iff (st : BotState) (text : String) :
    settingsMenuSel st text = none ↔ ¬ text ∈ sectionEntries "settings" := by
  unfold settingsMenuSel sectionEntries
  repeat' split
  all_goals simp_all

theorem aiMenuSel_none_iff (st : BotState) (text : String) :
    aiMenuSel st text = none ↔ ¬ text ∈ sectionEntries "ai_assistant" := by
  unfold aiMenuSel sectionEntries
  repeat' split
  all_goals simp_all

theorem menuStep_none_iff (svc : Services) (st : BotState) (text : String) :
    menuStep svc st text = none ↔ ¬ isMenuLabel st.session.sectionId text := by
  unfold menuStep isMenuLabel
  cases hmain : mainMenuNav st text with
  | some o =>
    have hmem : text ∈ mainLabels := by
      by_contra hc
      rw [(mainMenuNav_none_iff st text).mpr hc] at hmain
      cases hmain
    simp [hmem]
  | none =>
    have hnm : ¬ text ∈ mainLabels := (mainMenuNav_none_iff st text).mp hmain
    simp only [hnm, false_or]
    by_cases h1 : st.session.sectionId = "schedule"
    · cases hsub : scheduleMenuSel st text with
      | some o =>
        have hmem : text ∈ sectionEntries "schedule" := by
          by_contra hc
          rw [(scheduleMenuSel_none_iff st text).mpr hc] at hsub
          cases hsub
        simp [h1, hsub, hmem]
      | none =>
        have hmem := (scheduleMenuSel_none_iff st text).mp hsub
        simp [h1, hsub, hmem]
    · by_cases h2 : st.session.sectionId = "utils"
      · cases hsub : utilsMenuSel svc st text with
        | some o =>
          have hmem : text ∈ sectionEntries "utils" := by
            by_contra hc
            rw [(utilsMenuSel_none_iff svc st text).mpr hc] at hsub
            cases hsub
          simp [h2, hsub, hmem]
        | none =>
          have hmem := (utilsMenuSel_none_iff svc st text).mp hsub
          simp [h2, hsub, hmem]
      · by_cases h3 : st.session.sectionId = "settings"
        · cases hsub : settingsMenuSel st text with
          | some o =>
            have hmem : text ∈ sectionEntries "settings" := by
              by_contra hc
              rw [(settingsMenuSel_none_iff st text).mpr hc] at hsub
              cases hsub
            simp [h3, hsub, hmem]
          | none =>
            have hmem := (settingsMenuSel_none_iff st text).mp hsub
            simp [h3, hsub, hmem]
        · by_cases h4 : st.session.sectionId = "ai_assistant"
          · cases hsub : aiMenuSel st text with
            | some o =>
              have hmem : text ∈ sectionEntries "ai_assistant" := by
                by_contra hc
                rw [(aiMenuSel_none_iff st text).mpr hc] at hsub
                cases hsub
              simp [h4, hsub, hmem]
            | none =>
              have hmem := (aiMenuSel_none_iff st text).mp hsub
              simp [h4, hsub, hmem]
          · by_cases h5 : st.session.sectionId = "main"
            · simp [sectionEntries, h1, h2, h3, h4, h5, hnm]
            · simp [sectionEntries, h1, h2, h3, h4, h5]

theorem backStep_inv (st : BotState) (text : String) (o : Outcome)
    (h : backStep st text = some o) : SessionInv o.state.session := by
  unfold backStep at h
  split at h
  case isTrue =>
    repeat' split at h
    all_goals (injection h with h; subst h; simp_all [SessionInv, knownSections, knownModes])
  case isFalse => simp at h

theorem mainMenuNav_inv (st : BotState) (text : String) (o : Outcome)
    (h : mainMenuNav st text = some o) (hs : SessionInv st.session) :
    SessionInv o.state.session := by
  unfold mainMenuNav at h
  repeat' split at h
  all_goals first
    | (injection h with h; subst h; simp_all [SessionInv, knownSections, knownModes])
    | simp at h

theorem scheduleMenuSel_inv (st : BotState) (text : String) (o : Outcome)
    (h : scheduleMenuSel st text = some o) (hs : SessionInv st.session) :
    SessionInv o.state.session := by
  unfold scheduleMenuSel at h
  repeat' split at h
  all_goals first
    | (injection h with h; subst h; simp_all [SessionInv, knownSections, knownModes])
    | simp at h

theorem utilsMenuSel_inv (svc : Services) (st : BotState) (text : String) (o : Outcome)
    (h : utilsMenuSel svc st text = some o) (hs : SessionInv st.session) :
    SessionInv o.state.session := by
  unfold utilsMenuSel at h
  repeat' split at h
  all_goals first
    | (injection h with h; subst h; simp_all [SessionInv, knownSections, knownModes])
    | simp at h

theorem settingsMenuSel_inv (st : BotState) (text : String) (o : Outcome)
    (h : settingsMenuSel st text = some o) (hs : SessionInv st.session) :
    SessionInv o.state.session := by
  unfold settingsMenuSel at h
  repeat' split at h
  all_goals first
    | (injection h with h; subst h; simp_all [SessionInv, knownSections, knownModes])
    | simp at h

theorem aiMenuSel_inv (st : BotState) (text : String) (o : Outcome)
    (h : aiMenuSel st text = some o) (hs : SessionInv st.session) :
    SessionInv o.state.session := by
  unfold aiMenuSel at h
  repeat' split at h
  all_goals first
    | (injection h with h; subst h; simp_all [SessionInv, knownSections, knownModes])
    | simp at h

theorem menuStep_inv (svc : Services) (st : BotState) (text : String) (o : Outcome)
    (h : menuStep svc st text = some o) (hs : SessionInv st.session) :
    SessionInv o.state.session := by
  unfold menuStep at h
  cases hmain : mainMenuNav st text with
  | some o2 =>
    rw [hmain] at h
    injection h with h
    subst h
    exact mainMenuNav_inv _ _ _ hmain hs
  | none =>
    rw [hmain] at h
    cases hg1 : (if st.session.sectionId = "schedule" then scheduleMenuSel st text else none) with
    | some o2 =>
      rw [hg1] at h
      injection h with h
      subst h
      rcases Decidable.em (st.session.sectionId = "schedule") with hc | hc
      · rw [if_pos hc] at hg1
        exact scheduleMenuSel_inv _ _ _ hg1 hs
      · rw [if_neg hc] at hg1
        cases hg1
    | none =>
      rw [hg1] at h
      cases hg2 : (if st.session.sectionId = "utils" then utilsMenuSel svc st text else none) with
      | some o2 =>
        rw [hg2] at h
        injection h with h
        subst h
        rcases Decidable.em (st.session.sectionId = "utils") with hc | hc
        · rw [if_pos hc] at hg2
          exact utilsMenuSel_inv _ _ _ _ hg2 hs
        · rw [if_neg hc] at hg2
          cases hg2
      | none =>
        rw [hg2] at h
        cases hg3 : (if st.session.sectionId = "settings" then settingsMenuSel st text else none) with
        | some o2 =>
          rw [hg3] at h
          injection h with h
          subst h
          rcases Decidable.em (st.session.sectionId = "settings") with hc | hc
          · rw [if_pos hc] at hg3
            exact settingsMenuSel_inv _ _ _ hg3 hs
          · rw [if_neg hc] at hg3
            cases hg3
        | none =>
          rw [hg3] at h
          rcases Decidable.em (st.session.sectionId = "ai_assistant") with hc | hc
          · rw [if_pos hc] at h
            exact aiMenuSel_inv _ _ _ h hs
          · rw [if_neg hc] at h
            cases h

theorem handle_message_inv (svc : Services) (st : BotState) (text : String)
    (hs : SessionInv st.session) : SessionInv (handle_message svc st text).state.session := by
  unfold handle_message
  cases hb : backStep st text with
  | some o => exact backStep_inv st text o hb
  | none =>
    cases hc : captureStep svc st text with
    | some o =>
      obtain ⟨h1, h2⟩ := captureStep_char svc st text o hc
      exact ⟨h1 ▸ hs.1, by simp [h2]⟩
    | none =>
      cases hm : menuStep svc st text with
      | some o => exact menuStep_inv svc st text o hm hs
      | none =>
        cases hr : ragStep svc st text with
        | some o =>
          have := ragStep_state svc st text o hr
          simpa [this] using hs
        | none => exact hs

theorem handle_callback_query_inv (svc : Services) (st : BotState) (dat : String)
    (hs : SessionInv st.session) :
    SessionInv (handle_callback_query svc st dat).state.session := by
  unfold handle_callback_query
  repeat' split
  all_goals simp_all [SessionInv, knownSections, knownModes]

theorem start_inv (st : BotState) :
    SessionInv (start st).state.session := by
  simp [start, SessionInv, knownSections, knownModes]

theorem handle_document_inv (svc : Services) (st : BotState) (f : String)
    (hs : SessionInv st.session) :
    SessionInv (handle_document svc st f).state.session := by
  unfold handle_document
  repeat' split
  all_goals simpa using hs

theorem stepEvent_inv (svc : Services) (st : BotState) (e : Event)
    (hs : SessionInv st.session) : SessionInv (stepEvent svc st e).state.session := by
  cases e with
  | message t => exact handle_message_inv svc st t hs
  | callback d => exact handle_callback_query_inv svc st d hs
  | startCommand => exact start_inv st
  | document f => exact handle_document_inv svc st f hs

theorem runEvents_inv (evs : List (Services × Event)) (st : BotState)
    (hs : SessionInv st.session) : SessionInv (runEvents evs st).session := by
  induction evs generalizing st with
  | nil => exact hs
  | cons p rest ih => exact ih _ (stepEvent_inv p.1 st p.2 hs)

theorem ragStep_isSome (svc : Services) (st : BotState) (text : String)
    (h1 : st.session.sectionId = "ai_assistant") (h2 : st.session.mode = none) :
    (ragStep svc st text).isSome = true := by
  simp [ragStep, h1, h2, pyFalsy]

theorem handle_message_eq_staged (svc : Services) (st : BotState) (text : String)
    (hinv : ModeRegistered st.session) :
    handle_message svc st text = handleStaged svc st text := by
  unfold handle_message handleStaged
  by_cases hb : isBackToken text
  · rw [backStep_some st text hb, if_pos hb]
    rfl
  · rw [backStep_none st text hb, if_neg hb]
    cases hmo : st.session.mode with
    | some m =>
      have hreg := hinv m hmo
      have hcs := captureStep_isSome svc st text m hmo hreg
      obtain ⟨o, ho⟩ := Option.isSome_iff_exists.mp hcs
      rw [ho]
      simp [hmo, ho]
    | none =>
      have hcn : captureStep svc st text = none := by simp [captureStep, hmo]
      rw [hcn]
      simp only [hmo, Option.isSome_none, Bool.false_eq_true, if_false]
      by_cases hml : isMenuLabel st.session.sectionId text
      · have hne : menuStep svc st text ≠ none :=
          fun hn => ((menuStep_none_iff svc st text).mp hn) hml
        obtain ⟨o, ho⟩ := Option.ne_none_iff_exists'.mp hne
        rw [ho, if_pos hml]
        rfl
      · have hmn : menuStep svc st text = none := (menuStep_none_iff svc st text).mpr hml
        rw [hmn, if_neg hml]
        by_cases hai : st.session.sectionId = "ai_assistant"
        · have hrs := ragStep_isSome svc st text hai hmo
          obtain ⟨o, ho⟩ := Option.isSome_iff_exists.mp hrs
          rw [ho, if_pos hai]
          rfl
        · have hrn : ragStep svc st text = none :=
            (ragStep_none_iff svc st text).mpr (by simp [hai])
          rw [hrn, if_neg hai]

/-- Claim C1, counterexample.  The claim states that when the retrieval
search throws while the section is AIAssistant with no capture mode, the
session is reset to exactly (Main, None) and one generic failure reply is
emitted.  On the code this is false: the exception is caught inside the
RAG branch (bot.py:336-342), the session is left at ("ai_assistant",
None) — not "main" — and the single reply echoes the exception text
rather than a generic failure message. -/
theorem claim_C1_counterexample :
    (handle_message svcSearchErr ⟨⟨"ai_assistant", none, "cute", []⟩, 5200⟩ "any question").state.session =
      ⟨"ai_assistant", none, "cute", []⟩ ∧
    "ai_assistant" ≠ "main" ∧
    (handle_message svcSearchErr ⟨⟨"ai_assistant", none, "cute", []⟩, 5200⟩ "any question").replies =
      [⟨"Error: boom", .noKb⟩] :=
  ⟨rfl, by decide, rfl⟩

/-- Claim C1, amended.  If the retrieval search throws while the section
is AIAssistant with no active capture mode (and the text is not a back
token or a menu label, which would be consumed earlier), the exception is
caught inside the free-form chat branch: exactly one reply carrying the
exception text is emitted and the session state is left unchanged
(sectionId stays AIAssistant, captureMode stays None); no reset to Main
happens, because every external call of steps 2-4 sits inside a local
try/except and never reaches the outer Navigator boundary. -/
theorem claim_C1_amended (svc : Services) (st : BotState) (text e : String)
    (hsect : st.session.sectionId = "ai_assistant") (hmode : st.session.mode = none)
    (hnb : ¬ isBackToken text) (hnl : ¬ isMenuLabel st.session.sectionId text)
    (hvs : svc.hasVectorStore = true)
    (hsearch : svc.similaritySearch text 3 = .error e) :
    handle_message svc st text = ⟨st, [⟨"Error: " ++ e, .noKb⟩], [.search text 3]⟩ := by
  unfold handle_message
  rw [backStep_none st text hnb]
  have hcn : captureStep svc st text = none := by simp [captureStep, hmode]
  rw [hcn, (menuStep_none_iff svc st text).mpr hnl]
  simp [ragStep, hsect, hmode, pyFalsy, hvs, hsearch]

/-- Witness for claim C1 (amended), at a concrete failing search. -/
theorem claim_C1_witness :
    handle_message svcSearchErr ⟨⟨"ai_assistant", none, "cute", []⟩, 5200⟩ "q" =
      ⟨⟨⟨"ai_assistant", none, "cute", []⟩, 5200⟩, [⟨"Error: boom", .noKb⟩], [.search "q" 3]⟩ :=
  claim_C1_amended svcSearchErr _ "q" "boom" rfl rfl (by decide) (by decide) rfl rfl

/-- Claim C2, counterexample.  The claim states step 3 matches the text
only against the current section's own menu entries.  On the code the
four main-menu labels match in any section: in section AIAssistant with
no capture mode, the text "📅 My Schedule" is not an entry of the
AIAssistant menu, yet it is consumed as a menu transition to section
schedule and no retrieval search happens, where the claim's steps 3-4
require it to be treated as a free-form knowledge query. -/
theorem claim_C2_counterexample :
    ¬ "📅 My Schedule" ∈ sectionEntries "ai_assistant" ∧
    (handle_message svcW ⟨⟨"ai_assistant", none, "cute", []⟩, 5200⟩ "📅 My Schedule").state.session.sectionId =
      "schedule" ∧
    (handle_message svcW ⟨⟨"ai_assistant", none, "cute", []⟩, 5200⟩ "📅 My Schedule").calls = [] :=
  ⟨by decide, rfl, rfl⟩

/-- Claim C2, amended.  For every session whose capture mode, when
present, is registered, handleIncomingText is equal to the staged
dispatcher with this fixed precedence, first match wins: (1) global
back/home tokens, (2) active capture mode (any registered mode consumes
the raw text), (3) menu-label match — the four global main-menu labels in
any section, then the current section's own entries, (4) free-form
knowledge query if the section is AIAssistant with no capture mode,
(5) the generic fallback reply. -/
theorem claim_C2_amended (svc : Services) (st : BotState) (text : String)
    (hinv : ModeRegistered st.session) :
    handle_message svc st text = handleStaged svc st text :=
  handle_message_eq_staged svc st text hinv

/-- Witness for claim C2 (amended), at a concrete session and text. -/
theorem claim_C2_witness :
    handle_message svcW ⟨⟨"ai_assistant", some "summarize", "cute", []⟩, 5200⟩ "🧠 My Brain" =
      handleStaged svcW ⟨⟨"ai_assistant", some "summarize", "cute", []⟩, 5200⟩ "🧠 My Brain" :=
  claim_C2_amended svcW _ "🧠 My Brain" (by simp [ModeRegistered, knownModes])

/-- Claim C3, counterexample.  The claim states a failed validation keeps
the same captureMode active.  On the code, AwaitingMarketRate receiving
the non-numeric text "abc" emits the validation-error reply and CLEARS
the mode (bot.py:207 runs unconditionally), so captureMode is None
afterwards, not AwaitingMarketRate. -/
theorem claim_C3_counterexample :
    (handle_message svcW ⟨⟨"settings", some "set_market_rate", "cute", []⟩, 5200⟩ "abc").state.session.mode =
      none ∧
    (handle_message svcW ⟨⟨"settings", some "set_market_rate", "cute", []⟩, 5200⟩ "abc").replies =
      [⟨"❌ ဂဏန်းသီးသန့် ရိုက်ထည့်ပေးပါရှင် (ဥပမာ: 4500)။", .settingsMenu⟩] :=
  ⟨rfl, rfl⟩

/-- Claim C3, amended.  A failed validation emits the validation-error
reply and clears the capture mode (captures are single-shot); the session
is otherwise untouched and the rate keeps its old value.  To retry, the
user re-enters the mode through the Settings menu entry, after which the
valid input "4500" succeeds, sets the rate and clears the mode. -/
theorem claim_C3_amended (svc : Services) (st : BotState) (text : String)
    (hm : st.session.mode = some "set_market_rate") (hnb : ¬ isBackToken text)
    (hbad : pyParseDigits text = none) :
    (handle_message svc st text =
      ⟨{ st with session := { st.session with mode := none } },
        [⟨"❌ ဂဏန်းသီးသန့် ရိုက်ထည့်ပေးပါရှင် (ဥပမာ: 4500)။", .settingsMenu⟩], []⟩) ∧
    (handle_message svcW ⟨⟨"settings", none, "cute", []⟩, 5200⟩ "✏️ Set Market Rate").state.session.mode =
      some "set_market_rate" ∧
    (handle_message svcW ⟨⟨"settings", some "set_market_rate", "cute", []⟩, 5200⟩ "4500").state =
      ⟨⟨"settings", none, "cute", []⟩, 4500⟩ := by
  refine ⟨?_, rfl, rfl⟩
  unfold handle_message
  rw [backStep_none st text hnb]
  simp [captureStep, hm, hbad, clearMode]

/-- Witness for claim C3 (amended), at the concrete invalid input "abc". -/
theorem claim_C3_witness :
    handle_message svcW ⟨⟨"settings", some "set_market_rate", "cute", ["t"]⟩, 5200⟩ "abc" =
      ⟨⟨⟨"settings", none, "cute", ["t"]⟩, 5200⟩,
        [⟨"❌ ဂဏန်းသီးသန့် ရိုက်ထည့်ပေးပါရှင် (ဥပမာ: 4500)။", .settingsMenu⟩], []⟩ :=
  (claim_C3_amended svcW _ "abc" rfl (by decide) rfl).1

/-- Claim C4, confirmed.  For every finite sequence of events (text
messages, callback queries, /start commands, document uploads — each with
arbitrary service behaviour in force at that moment) applied to a fresh
session, the resulting sectionId is a member of the static section set
(main, brain, ai_assistant, schedule, utils, settings — i.e. Main, Brain,
AIAssistant, Schedule, Utilities, Settings) and the captureMode is None
or one of the ten registered mode identifiers.  Absent dictionary keys
are observationally the defaults "main"/None because every read in
bot.py:167-169 defaults them. -/
theorem claim_C4 (evs : List (Services × Event)) :
    SessionInv (runEvents evs initialState).session :=
  runEvents_inv evs initialState (by simp [SessionInv, initialState, knownSections])

/-- Claim C5, counterexample to its idempotence clause.  From section
Settings, the first "🔙 Main Menu" goes to Utilities (the parent of
Settings), not Main, and the second send then goes to Main — so the
session is not in Main both times and the two emitted menu replies
differ. -/
theorem claim_C5_counterexample :
    (handle_message svcW ⟨⟨"settings", none, "cute", []⟩, 5200⟩ "🔙 Main Menu").state.session.sectionId =
      "utils" ∧
    "utils" ≠ "main" ∧
    (handle_message svcW
        (handle_message svcW ⟨⟨"settings", none, "cute", []⟩, 5200⟩ "🔙 Main Menu").state
        "🔙 Main Menu").replies ≠
      (handle_message svcW ⟨⟨"settings", none, "cute", []⟩, 5200⟩ "🔙 Main Menu").replies :=
  ⟨rfl, by decide, by decide⟩

/-- Claim C5, amended.  A global back/home token clears captureMode, sets
sectionId to the parent of the current section per the static parent map
(Settings→Utilities→Main, Schedule→Main, AIAssistant→Main, Brain→Main)
and emits exactly the destination menu's prompt and button layout; from
any section other than Settings, sending the Main-Menu token twice in a
row leaves the session in Main both times with identical emitted menu
reply (from Settings the first send lands in Utilities). -/
theorem claim_C5_amended (svc : Services) (st : BotState) (text : String)
    (ht : isBackToken text) :
    handle_message svc st text =
      ⟨{ st with session := { st.session with mode := none, sectionId := parentOf st.session.sectionId } },
        [destMenuReply (parentOf st.session.sectionId)], []⟩ ∧
    (st.session.sectionId ≠ "settings" →
      (handle_message svc st text).state.session.sectionId = "main" ∧
      (handle_message svc (handle_message svc st text).state text).state.session.sectionId = "main" ∧
      (handle_message svc (handle_message svc st text).state text).replies =
        (handle_message svc st text).replies) := by
  have h1 : handle_message svc st text =
      ⟨{ st with session := { st.session with mode := none, sectionId := parentOf st.session.sectionId } },
        [destMenuReply (parentOf st.session.sectionId)], []⟩ := by
    unfold handle_message
    rw [backStep_some st text ht]
  refine ⟨h1, fun hns => ?_⟩
  have hp : parentOf st.session.sectionId = "main" := by
    unfold parentOf
    rw [if_neg hns]
  have h2 : handle_message svc { st with session := { st.session with mode := none, sectionId := "main" } } text =
      ⟨{ st with session := { st.session with mode := none, sectionId := "main" } },
        [destMenuReply "main"], []⟩ := by
    unfold handle_message
    rw [backStep_some _ text ht]
    simp [parentOf, destMenuReply]
  rw [h1]
  dsimp only
  rw [hp]
  rw [h2]
  exact ⟨rfl, rfl, rfl⟩

/-- Witness for claim C5 (amended), from the schedule section with an
active capture mode. -/
theorem claim_C5_witness :
    (handle_message svcW ⟨⟨"schedule", some "add_task", "cute", ["x"]⟩, 5200⟩ "🔙 Main Menu").state.session.sectionId =
      "main" ∧
    (handle_message svcW
        (handle_message svcW ⟨⟨"schedule", some "add_task", "cute", ["x"]⟩, 5200⟩ "🔙 Main Menu").state
        "🔙 Main Menu").state.session.sectionId = "main" :=
  ⟨((claim_C5_amended svcW _ "🔙 Main Menu" (Or.inr rfl)).2 (by decide)).1,
   ((claim_C5_amended svcW ⟨⟨"schedule", some "add_task", "cute", ["x"]⟩, 5200⟩ "🔙 Main Menu"
      (Or.inr rfl)).2 (by decide)).2.1⟩

/-- Claim C6, confirmed.  AwaitingReminderText (mode "add_task") appends
any non-empty text to the task list, keeps the section and clears the
mode; AwaitingTaskIndexToComplete (mode "remove_task"), given text
parsing as an integer i in [1, len(tasks)], removes the (i-1)-th task
preserving the order of the rest; and concretely, from an empty task list
in section Schedule, capturing "Buy milk" yields tasks == ["Buy milk"]
with section Schedule, and the follow-up Task-Done capture with input "1"
empties the list.  The first two parts assume the text is not a global
back token, which step 1 of the evaluation order would consume first. -/
theorem claim_C6 (svc : Services) (st : BotState) (text : String) (i : Nat)
    (hnb : ¬ isBackToken text) :
    (st.session.mode = some "add_task" → text ≠ "" →
      (handle_message svc st text).state.session.tasks = st.session.tasks ++ [text] ∧
      (handle_message svc st text).state.session.sectionId = st.session.sectionId ∧
      (handle_message svc st text).state.session.mode = none) ∧
    (st.session.mode = some "remove_task" → pyParseDigits text = some i → 1 ≤ i →
      i ≤ st.session.tasks.length →
      (handle_message svc st text).state.session.tasks =
        st.session.tasks.take (i - 1) ++ st.session.tasks.drop i ∧
      (handle_message svc st text).state.session.mode = none) ∧
    ((handle_message svcW ⟨⟨"schedule", some "add_task", "cute", []⟩, 5200⟩ "Buy milk").state =
      ⟨⟨"schedule", none, "cute", ["Buy milk"]⟩, 5200⟩) ∧
    ((handle_message svcW
        (handle_message svcW
          (handle_message svcW ⟨⟨"schedule", some "add_task", "cute", []⟩, 5200⟩ "Buy milk").state
          "✅ Task Done").state
        "1").state =
      ⟨⟨"schedule", none, "cute", []⟩, 5200⟩) := by
  refine ⟨?_, ?_, rfl, rfl⟩
  · intro hm _
    unfold handle_message
    rw [backStep_none st text hnb]
    simp [captureStep, hm, clearMode]
  · intro hm hp h1 h2
    have hi : i - 1 + 1 = i := by omega
    unfold handle_message
    rw [backStep_none st text hnb]
    simp [captureStep, hm, hp, h1, h2, clearMode, List.eraseIdx_eq_take_drop_succ, hi]

/-- Witness for claim C6, at concrete append and remove inputs. -/
theorem claim_C6_witness :
    (handle_message svcW ⟨⟨"schedule", some "add_task", "cute", ["x"]⟩, 5200⟩ "Buy milk").state.session.tasks =
      ["x", "Buy milk"] ∧
    (handle_message svcW ⟨⟨"schedule", some "remove_task", "cute", ["a", "b", "c"]⟩, 5200⟩ "2").state.session.tasks =
      ["a", "c"] := by
  constructor
  · have h := (claim_C6 svcW ⟨⟨"schedule", some "add_task", "cute", ["x"]⟩, 5200⟩ "Buy milk" 0
      (by decide)).1 rfl (by decide)
    simpa using h.1
  · have h := (claim_C6 svcW ⟨⟨"schedule", some "remove_task", "cute", ["a", "b", "c"]⟩, 5200⟩ "2" 2
      (by decide)).2.1 rfl rfl (by decide) (by decide)
    simpa using h.1

/-- Claim C7, counterexample.  The claim states the AwaitingMarketRate
capture succeeds only for positive integers.  On the code the test is
`text.isdigit()`, which accepts "0": the capture succeeds, the
process-wide rate is set to 0 and the success reply is emitted, though 0
is not a positive integer. -/
theorem claim_C7_counterexample :
    pyParseDigits "0" = some 0 ∧
    (handle_message svcW ⟨⟨"settings", some "set_market_rate", "cute", []⟩, 5200⟩ "0").state.marketRate = 0 ∧
    (handle_message svcW ⟨⟨"settings", some "set_market_rate", "cute", []⟩, 5200⟩ "0").replies =
      [⟨"✅ Market Rate (USD) ကို 0 သို့ ပြောင်းလိုက်ပါပြီ။", .settingsMenu⟩] ∧
    ¬ 0 < 0 :=
  ⟨rfl, rfl, rfl, by decide⟩

/-- Claim C7, amended.  While captureMode is AwaitingMarketRate (and the
text is not a global back token), the capture succeeds — updating the
process-wide FX-rate setting to the entered value, clearing the mode and
leaving the section unchanged (Settings in the normal flow) — exactly
when the text is a non-empty string of decimal digits, i.e. parses as a
NONNEGATIVE integer; any other text is rejected with a validation error
and leaves the rate unchanged. -/
theorem claim_C7_amended (svc : Services) (st : BotState) (text : String) (n : Nat)
    (hm : st.session.mode = some "set_market_rate") (hnb : ¬ isBackToken text) :
    (pyParseDigits text = some n →
      handle_message svc st text =
        ⟨⟨{ st.session with mode := none }, n⟩,
          [⟨"✅ Market Rate (USD) ကို " ++ toString n ++ " သို့ ပြောင်းလိုက်ပါပြီ။", .settingsMenu⟩], []⟩) ∧
    (pyParseDigits text = none →
      handle_message svc st text =
        ⟨⟨{ st.session with mode := none }, st.marketRate⟩,
          [⟨"❌ ဂဏန်းသီးသန့် ရိုက်ထည့်ပေးပါရှင် (ဥပမာ: 4500)။", .settingsMenu⟩], []⟩) := by
  constructor
  · intro hp
    unfold handle_message
    rw [backStep_none st text hnb]
    simp [captureStep, hm, hp, clearMode]
  · intro hp
    unfold handle_message
    rw [backStep_none st text hnb]
    simp [captureStep, hm, hp, clearMode]

/-- Witness for claim C7 (amended), at the concrete valid input "4500". -/
theorem claim_C7_witness :
    handle_message svcW ⟨⟨"settings", some "set_market_rate", "cute", []⟩, 5200⟩ "4500" =
      ⟨⟨⟨"settings", none, "cute", []⟩, 4500⟩,
        [⟨"✅ Market Rate (USD) ကို 4500 သို့ ပြောင်းလိုက်ပါပြီ။", .settingsMenu⟩], []⟩ := by
  have h := (claim_C7_amended svcW ⟨⟨"settings", some "set_market_rate", "cute", []⟩, 5200⟩ "4500" 4500
    rfl (by decide)).1 rfl
  simpa using h

/-- Claim C8, counterexample.  The claim states that on an empty
retrieval result the prompt omits the context block entirely.  On the
code the prompt is built unconditionally as
`f"Context: {context_str}\n\nQ: ..."` (bot.py:339), so with no snippets
the chat service still receives a prompt that begins with the
"Context: " block header, merely with empty contents. -/
theorem claim_C8_counterexample :
    (handle_message svcEmptySearch ⟨⟨"ai_assistant", none, "cute", []⟩, 5200⟩ "What is the refund policy?").calls =
      [.search "What is the refund policy?" 3,
       .generate ("Context: " ++ "\n\nQ: What is the refund policy?\n\nAnswer in Burmese:")] :=
  rfl

/-- Claim C8, amended.  For free-form text handled in section AIAssistant
with no capture mode (text not a back token or menu label), when the
vector store is available and search and generation succeed, the chat
service is called with the prompt "Context: " ++ the newline-joined
snippets ++ "\n\nQ: " ++ text ++ "\n\nAnswer in Burmese:" — with an
empty retrieval result the context block is present but empty (this is
not an error) — and the generated text is the single emitted reply, with
the session unchanged (section remains AIAssistant). -/
theorem claim_C8_amended (svc : Services) (st : BotState) (text resp : String) (docs : List String)
    (hsect : st.session.sectionId = "ai_assistant") (hmode : st.session.mode = none)
    (hnb : ¬ isBackToken text) (hnl : ¬ isMenuLabel st.session.sectionId text)
    (hvs : svc.hasVectorStore = true)
    (hsearch : svc.similaritySearch text 3 = .ok docs)
    (hllm : svc.llmInvoke
      ("Context: " ++ String.intercalate "\n" docs ++ "\n\nQ: " ++ text ++ "\n\nAnswer in Burmese:") = .ok resp) :
    handle_message svc st text =
      ⟨st, [⟨resp, .noKb⟩],
        [.search text 3,
         .generate ("Context: " ++ String.intercalate "\n" docs ++ "\n\nQ: " ++ text ++ "\n\nAnswer in Burmese:")]⟩ := by
  unfold handle_message
  rw [backStep_none st text hnb]
  have hcn : captureStep svc st text = none := by simp [captureStep, hmode]
  rw [hcn, (menuStep_none_iff svc st text).mpr hnl]
  simp [ragStep, hsect, hmode, pyFalsy, hvs, hsearch, hllm]

/-- Witness for claim C8 (amended): the spec's concrete scenario, with
retrieval returning the refund-policy snippet. -/
theorem claim_C8_witness :
    handle_message svcW ⟨⟨"ai_assistant", none, "cute", []⟩, 5200⟩ "What is the refund policy?" =
      ⟨⟨⟨"ai_assistant", none, "cute", []⟩, 5200⟩,
        [⟨"ANSWER[Context: Refunds are processed within 14 days.\n\nQ: What is the refund policy?\n\nAnswer in Burmese:]", .noKb⟩],
        [.search "What is the refund policy?" 3,
         .generate "Context: Refunds are processed within 14 days.\n\nQ: What is the refund policy?\n\nAnswer in Burmese:"]⟩ := by
  have h := claim_C8_amended svcW ⟨⟨"ai_assistant", none, "cute", []⟩, 5200⟩ "What is the refund policy?"
    "ANSWER[Context: Refunds are processed within 14 days.\n\nQ: What is the refund policy?\n\nAnswer in Burmese:]"
    ["Refunds are processed within 14 days."] rfl rfl (by decide) (by decide) rfl rfl rfl
  simpa using h

/-- Claim C9, counterexample.  The claim states the AwaitingDeleteSourceName
completion leaves the session in section Main.  On the code the branch
(bot.py:244-249) never writes the section: entered from the Brain panel,
the session stays in section "brain" afterwards (only the reply carries
the Main-menu keyboard). -/
theorem claim_C9_counterexample :
    (handle_message svcW ⟨⟨"brain", some "delete_data", "cute", []⟩, 5200⟩ "old.pdf").calls =
      [.deleteBySource "old.pdf"] ∧
    (handle_message svcW ⟨⟨"brain", some "delete_data", "cute", []⟩, 5200⟩ "old.pdf").state.session.sectionId =
      "brain" ∧
    "brain" ≠ "main" :=
  ⟨rfl, rfl, by decide⟩

/-- Claim C9, amended.  Completing an AwaitingDeleteSourceName capture
with any text (not a global back token) calls the ingestion service's
delete-by-source operation with exactly that text, clears the capture
mode and, on success, emits one confirmation reply carrying the Main-menu
keyboard; the sectionId is left unchanged rather than set to Main. -/
theorem claim_C9_amended (svc : Services) (st : BotState) (text : String)
    (hm : st.session.mode = some "delete_data") (hnb : ¬ isBackToken text)
    (hok : svc.pineconeDelete text = .ok ()) :
    handle_message svc st text =
      ⟨{ st with session := { st.session with mode := none } },
        [⟨"🗑️ Deleted: " ++ text, .mainMenu⟩], [.deleteBySource text]⟩ := by
  unfold handle_message
  rw [backStep_none st text hnb]
  simp [captureStep, hm, hok, clearMode]

/-- Witness for claim C9 (amended), at a concrete source name. -/
theorem claim_C9_witness :
    handle_message svcW ⟨⟨"brain", some "delete_data", "cute", []⟩, 5200⟩ "notes.docx" =
      ⟨⟨⟨"brain", none, "cute", []⟩, 5200⟩,
        [⟨"🗑️ Deleted: notes.docx", .mainMenu⟩], [.deleteBySource "notes.docx"]⟩ := by
  have h := claim_C9_amended svcW ⟨⟨"brain", some "delete_data", "cute", []⟩, 5200⟩ "notes.docx"
    rfl (by decide) rfl
  simpa using h

/-- Claim C10, confirmed.  Capture modes are single-shot: for every
session whose active capture mode is one of the registered identifiers,
handling one incoming text message — whatever its content, whether
validation succeeds or fails, and whether the side effect succeeds or
throws — leaves captureMode == None afterwards (the back branch and every
capture branch unconditionally clear the mode, bot.py:174, 198, 207, 230,
234, 242, 249, 253). -/
theorem claim_C10 (svc : Services) (st : BotState) (text : String) (m : String)
    (hm : st.session.mode = some m) (hreg : m ∈ knownModes) :
    (handle_message svc st text).state.session.mode = none := by
  by_cases hb : isBackToken text
  · unfold handle_message
    rw [backStep_some st text hb]
  · have hcs := captureStep_isSome svc st text m hm hreg
    obtain ⟨o, ho⟩ := Option.isSome_iff_exists.mp hcs
    unfold handle_message
    rw [backStep_none st text hb, ho]
    exact (captureStep_char svc st text o ho).2

/-- Witness for claim C10, at a concrete weather-city capture. -/
theorem claim_C10_witness :
    (handle_message svcW ⟨⟨"utils", some "check_weather", "cute", []⟩, 5200⟩ "Yangon").state.session.mode =
      none :=
  claim_C10 svcW _ "Yangon" "check_weather" rfl (by decide)
